import Mathlib

/-!
Verification of the arXiv research agent against its specification.

The Python sources are shallowly embedded: activities and orchestrators
become pure Lean functions, with the external collaborators (the arXiv
HTTP transport, XML parsing of response bodies, and the LLM JSON parse)
supplied as explicit oracle arguments.  JSON dictionaries flowing through
the workflow are modelled by the `JVal` type below.
-/

namespace ArxivAgent

/-- JSON-like values, as produced by json.loads and passed between
activities.  Objects are association lists of string keys. -/
inductive JVal where
  | null
  | bool (b : Bool)
  | num (n : Int)
  | str (s : String)
  | arr (xs : List JVal)
  | obj (fields : List (String × JVal))

/-- A JSON object body: what a parsed Python dict holds. -/
abbrev JObj := List (String × JVal)

/-- Python truthiness of a JSON value (None, False, 0, "", [] and {} are
falsy; everything else is truthy). -/
def JVal.truthy : JVal → Bool
  | .null => false
  | .bool b => b
  | .num n => n != 0
  | .str s => s != ""
  | .arr xs => !xs.isEmpty
  | .obj fs => !fs.isEmpty

/-- Dictionary lookup, dict.get(k) without a default. -/
def jget (fs : JObj) (k : String) : Option JVal :=
  (fs.find? (fun p => p.1 == k)).map (fun p => p.2)

/-- Dictionary assignment d[k] = v: replace the binding when the key is
present, append it otherwise. -/
def jset (fs : JObj) (k : String) (v : JVal) : JObj :=
  if fs.any (fun p => p.1 == k) then
    fs.map (fun p => if p.1 == k then (k, v) else p)
  else fs ++ [(k, v)]

/-- A paper record as produced by arxiv_api._parse_entry (models.py
PaperReference carries the same fields). -/
structure Paper where
  arxiv_id : String
  title : String
  authors : List String
  summary : String
  published : String
  primary_category : String
  categories : List String
  pdf_url : String
  abs_url : String
  comment : String
  journal_ref : String
  doi : String
deriving DecidableEq

/-- Maximum number of papers to analyze per query (activities.py). -/
def MAX_PAPERS_TO_ANALYZE : Nat := 15

/-- The top_papers entry built for one paper in analyze_papers_activity
(activities.py lines 82-95): all fields of the incoming paper dict are
copied through. -/
def top_paper_entry (p : Paper) : JVal :=
  .obj [("arxiv_id", .str p.arxiv_id), ("title", .str p.title),
        ("authors", .arr (p.authors.map JVal.str)), ("summary", .str p.summary),
        ("published", .str p.published), ("primary_category", .str p.primary_category),
        ("categories", .arr (p.categories.map JVal.str)), ("pdf_url", .str p.pdf_url),
        ("abs_url", .str p.abs_url), ("comment", .str p.comment),
        ("journal_ref", .str p.journal_ref), ("doi", .str p.doi)]

/-- The default evaluation dict substituted when parsing the LLM analysis
response fails (activities.py lines 137-143). -/
def default_evaluation : JObj :=
  [("insights", .arr []), ("relevance_score", .num 5),
   ("summary", .str "Failed to parse LLM response"), ("key_points", .arr []),
   ("research_gaps", .arr [])]

/-- Embedding of analyze_papers_activity (activities.py lines 38-147).
The LLM call plus parse_json_response is the oracle parameter: `.ok d`
when the response parses to the dict d, `.error ()` when json.loads
raises JSONDecodeError.  The prompt-building is not value-relevant; the
returned dict is the parsed (or default) evaluation with "query" and
"top_papers" assigned afterwards. -/
def analyze_papers_activity (topic query : String) (papers : List Paper)
    (parsed : Except Unit JObj) : JObj :=
  let top_papers := (papers.take MAX_PAPERS_TO_ANALYZE).map top_paper_entry
  let evaluation_dict :=
    match parsed with
    | .ok d => d
    | .error _ => default_evaluation
  jset (jset evaluation_dict "query" (.str query)) "top_papers" (.arr top_papers)

/-- The short-circuit Finding returned by paper_research_orchestrator when
the search yields no papers (orchestrations.py lines 66-74). -/
def no_papers_finding (query : String) : JObj :=
  [("query", .str query), ("insights", .arr []), ("relevance_score", .num 0),
   ("summary", .str "No papers found for this query"), ("key_points", .arr []),
   ("research_gaps", .arr []), ("top_papers", .arr [])]

/-- Activity calls made by one run of the paper research sub-orchestration. -/
structure RoundTrace where
  searchCalls : Nat
  analyzeCalls : Nat
deriving DecidableEq

/-- Embedding of paper_research_orchestrator (orchestrations.py lines
35-89).  The search activity's result is the `papers` oracle, the LLM
parse outcome of the analyze activity is `parsed`.  The trace records how
many search and analyze activity calls were issued. -/
def paper_research_orchestrator (main_topic query : String) (papers : List Paper)
    (parsed : Except Unit JObj) : JObj × RoundTrace :=
  if papers.isEmpty then
    (no_papers_finding query, ⟨1, 0⟩)
  else
    (analyze_papers_activity main_topic query papers parsed, ⟨1, 1⟩)

/-- WorkflowState: the whole carry-over between iterations of the main
loop (orchestrations.py lines 147-152). -/
structure WorkflowState where
  topic : String
  max_iterations : Nat
  current_iteration : Nat
  all_findings : List JObj
  current_query : String

/-- FinalResult returned on termination (orchestrations.py lines 116-121). -/
structure FinalResult where
  topic : String
  iterations : Nat
  report : String
  findings_count : Nat

/-- Outcome of one orchestration instance: terminate with a final result,
or re-enter via continue_as_new with a fresh state. -/
inductive OrchStep where
  | done (r : FinalResult)
  | continueAsNew (s : WorkflowState)

/-- Labels of the calls the main orchestrator can issue in one instance. -/
inductive Act where
  | searchRound
  | decideCont
  | identifyGaps
  | synthesize
deriving DecidableEq

/-- Embedding of arxiv_research_orchestrator (orchestrations.py lines
124-219), one instance between re-entry boundaries.  External calls are
oracles: `round` for the paper_research_orchestrator sub-orchestration,
`decide` for decide_continuation_activity, `gaps` for
identify_research_gaps_activity, `synth` for
synthesize_research_activity.  The returned list is the trace of calls
issued.  Python's `if not follow_up` treats both None and the empty
string as absent, hence the extra empty-string test on the gaps result. -/
def arxiv_research_orchestrator (s : WorkflowState)
    (round : String → String → JObj)
    (decide : String → List JObj → Nat → Nat → Bool)
    (gaps : String → List JObj → Nat → Option String)
    (synth : String → List JObj → String) : OrchStep × List Act :=
  if s.max_iterations ≤ s.current_iteration then
    (.done ⟨s.topic, s.current_iteration, synth s.topic s.all_findings,
            s.all_findings.length⟩,
     [Act.synthesize])
  else
    let ci := s.current_iteration + 1
    let analysis := round s.topic s.current_query
    let fs := s.all_findings ++ [analysis]
    if decide s.topic fs ci s.max_iterations then
      match gaps s.topic fs ci with
      | some q =>
        if q = "" then
          (.done ⟨s.topic, ci, synth s.topic fs, fs.length⟩,
           [Act.searchRound, Act.decideCont, Act.identifyGaps, Act.synthesize])
        else
          (.continueAsNew ⟨s.topic, s.max_iterations, ci, fs, q⟩,
           [Act.searchRound, Act.decideCont, Act.identifyGaps])
      | none =>
        (.done ⟨s.topic, ci, synth s.topic fs, fs.length⟩,
         [Act.searchRound, Act.decideCont, Act.identifyGaps, Act.synthesize])
    else
      (.done ⟨s.topic, ci, synth s.topic fs, fs.length⟩,
       [Act.searchRound, Act.decideCont, Act.synthesize])

/-- The state the client's start request induces for the first instance:
current_iteration and all_findings take their input.get defaults and the
first query is the topic itself (orchestrations.py lines 148-152). -/
def initialState (topic : String) (max_iterations : Nat) : WorkflowState :=
  ⟨topic, max_iterations, 0, [], topic⟩

/-- Reachability across continue_as_new boundaries: a state is reachable
from `s₀` when a chain of orchestrator instances, each with its own
oracle results, re-enters through it. -/
inductive Reaches (s₀ : WorkflowState) : WorkflowState → Prop
  | refl : Reaches s₀ s₀
  | step {s s' : WorkflowState}
      (round : String → String → JObj)
      (decide : String → List JObj → Nat → Nat → Bool)
      (gaps : String → List JObj → Nat → Option String)
      (synth : String → List JObj → String) (tr : List Act) :
      Reaches s₀ s →
      arxiv_research_orchestrator s round decide gaps synth = (.continueAsNew s', tr) →
      Reaches s₀ s'

/-- Python's str.strip(): drop leading and trailing whitespace.  Defined
over the character list so that it evaluates by reduction. -/
def pyStrip (s : String) : String :=
  ⟨((s.data.dropWhile Char.isWhitespace).reverse.dropWhile Char.isWhitespace).reverse⟩

/-! Fetcher: arxiv_api.py -/

/-- Retry cap of _rate_limited_request (arxiv_api.py MAX_RETRIES). -/
def MAX_RETRIES : Nat := 3

/-- Base seconds for the exponential backoff (arxiv_api.py
RETRY_BACKOFF_BASE, 5.0 seconds, modelled in whole seconds). -/
def RETRY_BACKOFF_BASE : Nat := 5

/-- What one outbound client.get attempt can produce: a response with a
status code and a body, or an httpx exception. -/
inductive AttemptResult where
  | resp (status : Nat) (body : String)
  | timeout (m : String)
  | netErr (m : String)
deriving DecidableEq

/-- Outcome of _rate_limited_request: a returned response, a propagated
httpx exception, or the dead-code ArxivAPIError("Max retries exceeded")
raised only when no attempt was made at all. -/
inductive RLResult where
  | response (status : Nat) (body : String)
  | raisedTimeout (m : String)
  | raisedNetErr (m : String)
  | maxRetriesExceeded
deriving DecidableEq

/-- A 429 or 503 status triggers the backoff-and-retry branches. -/
def retryableStatus (status : Nat) : Bool :=
  status == 429 || status == 503

/-- Loop body of _rate_limited_request (arxiv_api.py lines 46-76).
`attempt` is the current loop index, `remaining` the attempts left out of
MAX_RETRIES, `backoffs` the backoff sleeps performed so far, `last` the
most recent (retryable) response.  Returns the result together with the
number of requests issued and the backoff delays slept. -/
def rlAux (f : Nat → AttemptResult) :
    Nat → Nat → List Nat → Option (Nat × String) → RLResult × Nat × List Nat
  | attempt, 0, backoffs, last =>
    match last with
    | some (s, b) => (.response s b, attempt, backoffs)
    | none => (.maxRetriesExceeded, attempt, backoffs)
  | attempt, remaining + 1, backoffs, _ =>
    match f attempt with
    | .timeout m => (.raisedTimeout m, attempt + 1, backoffs)
    | .netErr m => (.raisedNetErr m, attempt + 1, backoffs)
    | .resp s b =>
      if retryableStatus s then
        rlAux f (attempt + 1) remaining
          (backoffs ++ [RETRY_BACKOFF_BASE * 2 ^ attempt]) (some (s, b))
      else
        (.response s b, attempt + 1, backoffs)

/-- Embedding of _rate_limited_request: up to MAX_RETRIES attempts, each
fed by the transport oracle `f`; after the loop the last (retryable)
response is returned. -/
def rate_limited_request (f : Nat → AttemptResult) : RLResult × Nat × List Nat :=
  rlAux f 0 MAX_RETRIES [] none

/-- The two Python exception classes search_arxiv can raise: ValueError
for argument validation and ArxivAPIError for API failures, each
carrying its message. -/
inductive SearchErr where
  | valueError (m : String)
  | arxivAPIError (m : String)
deriving DecidableEq

/-- Result of a search_arxiv call, instrumented with the number of
outbound requests issued and the backoff delays slept. -/
structure SearchResult where
  outcome : Except SearchErr (List Paper)
  requests : Nat
  backoffs : List Nat

/-- Allowed sort_by values (arxiv_api.py line 218). -/
def SORT_BY_VALUES : List String := ["relevance", "lastUpdatedDate", "submittedDate"]

/-- Allowed sort_order values (arxiv_api.py line 221). -/
def SORT_ORDER_VALUES : List String := ["ascending", "descending"]

/-- Embedding of search_arxiv (arxiv_api.py lines 191-258).  The
transport is the per-attempt oracle `f`; XML parsing of the body
(ET.fromstring plus _parse_entry over the entries) is the oracle
`parseBody`.  Validation follows the source order: max_results, then
query, then sort_by, then sort_order; only after validation is the
rate-limited request issued.  httpx's raise_for_status raises for 4xx
and 5xx status codes, which the except clause turns into
ArxivAPIError("HTTP error: <status>"). -/
def search_arxiv (query : String) (max_results : Int) (sort_by sort_order : String)
    (f : Nat → AttemptResult)
    (parseBody : String → Except String (List Paper)) : SearchResult :=
  if ¬ (1 ≤ max_results ∧ max_results ≤ 100) then
    ⟨.error (.valueError "max_results must be between 1 and 100"), 0, []⟩
  else if pyStrip query = "" then
    ⟨.error (.valueError "query cannot be empty"), 0, []⟩
  else if sort_by ∉ SORT_BY_VALUES then
    ⟨.error (.valueError "sort_by must be one of the allowed values"), 0, []⟩
  else if sort_order ∉ SORT_ORDER_VALUES then
    ⟨.error (.valueError "sort_order must be one of the allowed values"), 0, []⟩
  else
    match rate_limited_request f with
    | (.raisedTimeout m, n, bs) =>
      ⟨.error (.arxivAPIError ("Request timed out: " ++ m)), n, bs⟩
    | (.raisedNetErr m, n, bs) =>
      ⟨.error (.arxivAPIError ("Network error: " ++ m)), n, bs⟩
    | (.maxRetriesExceeded, n, bs) =>
      ⟨.error (.arxivAPIError "Max retries exceeded"), n, bs⟩
    | (.response s b, n, bs) =>
      if 400 ≤ s ∧ s < 600 then
        ⟨.error (.arxivAPIError ("HTTP error: " ++ toString s)), n, bs⟩
      else
        match parseBody b with
        | .error m => ⟨.error (.arxivAPIError ("Invalid API response: " ++ m)), n, bs⟩
        | .ok papers => ⟨.ok papers, n, bs⟩

/-- Valid fetch arguments: the conjunction of all four checks. -/
def ValidArgs (query : String) (max_results : Int) (sort_by sort_order : String) : Prop :=
  1 ≤ max_results ∧ max_results ≤ 100 ∧ pyStrip query ≠ "" ∧
  sort_by ∈ SORT_BY_VALUES ∧ sort_order ∈ SORT_ORDER_VALUES

/-- The three failure classes the spec names for the fetch layer. -/
inductive ErrClass where
  | upstreamUnavailable
  | transportError
  | malformedResponse
deriving DecidableEq

/-- Leading-text test on strings, via their character lists. -/
def strHasLead (lead m : String) : Bool :=
  lead.data.isPrefixOf m.data

/-- Modelled from the spec: classifies an ArxivAPIError message into the
spec's three fetch-failure classes by its fixed leading text.  This is
the spec-side definition used to state that callers can distinguish the
cases from the single exception type the code raises. -/
def specErrorClass (m : String) : Option ErrClass :=
  if strHasLead "HTTP error" m then some .upstreamUnavailable
  else if strHasLead "Request timed out" m then some .transportError
  else if strHasLead "Network error" m then some .transportError
  else if strHasLead "Invalid API response" m then some .malformedResponse
  else none

/-! Result parser: arxiv_api._parse_entry, link selection -/

/-- One atom:link element of an entry, with the attributes the parser
consults (absent attributes read as "" via .get defaults). -/
structure RawLink where
  rel : String
  type : String
  title : String
  href : String
deriving DecidableEq

/-- The pdf test of the first branch of the link loop (arxiv_api.py line
157): title "pdf" or type "application/pdf". -/
def is_pdf_link (l : RawLink) : Bool :=
  l.title == "pdf" || l.type == "application/pdf"

/-- One step of the link loop (arxiv_api.py lines 152-160): the pdf
branch overwrites pdf_url, the elif alternate branch overwrites abs_url.
The accumulator is the (pdf_url, abs_url) pair. -/
def link_step (acc : String × String) (l : RawLink) : String × String :=
  if is_pdf_link l then (l.href, acc.2)
  else if l.rel == "alternate" then (acc.1, l.href)
  else acc

/-- The whole link loop, starting from empty strings. -/
def select_links (links : List RawLink) : String × String :=
  links.foldl link_step ("", "")

/-- The abs_url field of the parsed entry (arxiv_api.py line 184):
Python's `abs_url or f"https://arxiv.org/abs/{arxiv_id}"` falls back to
the constructed URL when the selected abs_url is empty. -/
def entry_abs_url (arxiv_id : String) (links : List RawLink) : String :=
  let abs_url := (select_links links).2
  if abs_url = "" then "https://arxiv.org/abs/" ++ arxiv_id else abs_url

/-- Modelled from the spec: the first "alternate"-relation link of the
entry, the spec's selection rule for the abstract URL. -/
def spec_first_alternate (links : List RawLink) : Option String :=
  (links.find? (fun l => l.rel == "alternate")).map (fun l => l.href)

/-- A link the elif branch can actually assign to abs_url: rel
"alternate" and not taken by the pdf branch first. -/
def is_alt_link (l : RawLink) : Bool :=
  !(is_pdf_link l) && l.rel == "alternate"

/-- The last link of the list satisfying `p`, if any. -/
def last_matching (p : RawLink → Bool) : List RawLink → Option RawLink
  | [] => none
  | l :: ls =>
    match last_matching p ls with
    | some r => some r
    | none => if p l then some l else none

/-! Continuation decision: activities.py decide_continuation_activity -/

/-- Embedding of decide_continuation_activity (activities.py lines
216-291).  The LLM call and parse_json_response are the `parsed` oracle;
on JSONDecodeError the code substitutes the empty dict.  The returned
value is dict.get("should_continue", False), which the orchestrator then
tests for truthiness. -/
def decide_continuation_activity (topic : String) (all_findings : List JObj)
    (current_iteration max_iterations : Nat)
    (parsed : Except Unit JObj) : JVal :=
  if max_iterations ≤ current_iteration then .bool false
  else
    let json_response : JObj :=
      match parsed with
      | .ok d => d
      | .error _ => []
    (jget json_response "should_continue").getD (.bool false)

/-! Control surface: client.py -/

/-- Embedding of AgentStartRequest.validated_max_iterations (client.py
lines 35-38). -/
def validated_max_iterations (max_iterations : Int) : Int :=
  max 1 (min 10 max_iterations)

/-- What the start endpoint does: reject with an HTTP error, or schedule
the workflow with the given input.  A scheduled value is produced only
after validation, so a rejected request creates no workflow instance. -/
inductive StartResult where
  | httpError (status : Nat) (detail : String)
  | scheduled (topic : String) (max_iterations : Int)
deriving DecidableEq

/-- Embedding of the start_agent endpoint (client.py lines 139-166): an
empty or whitespace-only topic is rejected with a 400 before the client
is even created; otherwise the orchestration is scheduled with the
stripped topic and the clamped max_iterations. -/
def start_agent (topic : String) (max_iterations : Int) : StartResult :=
  if pyStrip topic = "" then .httpError 400 "Topic cannot be empty"
  else .scheduled (pyStrip topic) (validated_max_iterations max_iterations)

/-! Concrete fixtures used by witnesses and counterexamples -/

/-- A sample finding dict, as one research round could produce. -/
def sampleFinding : JObj := [("query", .str "ai"), ("relevance_score", .num 7)]

/-- Round oracle returning the sample finding. -/
def roundO : String → String → JObj := fun _ _ => sampleFinding

/-- Continuation oracle that always continues. -/
def decideO : String → List JObj → Nat → Nat → Bool := fun _ _ _ _ => true

/-- Gap oracle returning a fixed follow-up query. -/
def gapsO : String → List JObj → Nat → Option String := fun _ _ _ => some "next query"

/-- Synthesizer oracle returning a fixed report. -/
def synthO : String → List JObj → String := fun _ _ => "final report"

/-- The state reached after one iteration from initialState "ai" 2 with
the oracles above. -/
def reachedState : WorkflowState := ⟨"ai", 2, 1, [sampleFinding], "next query"⟩

/-- A transport that answers 503 on the first three attempts and would
succeed on the fourth. -/
def transport503then200 : Nat → AttemptResult := fun n =>
  if n < 3 then .resp 503 "" else .resp 200 "<feed/>"

/-- A transport whose first attempt times out. -/
def transportTimeout : Nat → AttemptResult := fun _ => .timeout "read deadline exceeded"

/-- A sample parsed paper. -/
def samplePaper : Paper :=
  ⟨"2301.00001", "Sample", ["Ada"], "about", "2023-01-01", "cs.AI", ["cs.AI"],
   "pdf-url", "abs-url", "", "", ""⟩

/-- A body parser that always succeeds with the sample paper. -/
def parseSampleFeed : String → Except String (List Paper) := fun _ => .ok [samplePaper]

/-- Two alternate-relation links with distinct targets. -/
def altLinkA : RawLink := ⟨"alternate", "text/html", "", "https://arxiv.org/abs/1111.0001v1"⟩

/-- Second alternate-relation link. -/
def altLinkB : RawLink := ⟨"alternate", "text/html", "", "https://arxiv.org/abs/2222.0002v2"⟩

/-! Theorems -/

/-- A continue_as_new outcome can only arise below the iteration cap, and
the new state carries the incremented counter and the findings list with
exactly the round's finding appended. -/
theorem orchestrator_continue_characterization
    {s s' : WorkflowState}
    {round : String → String → JObj}
    {decide : String → List JObj → Nat → Nat → Bool}
    {gaps : String → List JObj → Nat → Option String}
    {synth : String → List JObj → String} {tr : List Act}
    (h : arxiv_research_orchestrator s round decide gaps synth = (.continueAsNew s', tr)) :
    s.current_iteration < s.max_iterations ∧
    s'.topic = s.topic ∧
    s'.max_iterations = s.max_iterations ∧
    s'.current_iteration = s.current_iteration + 1 ∧
    s'.all_findings = s.all_findings ++ [round s.topic s.current_query] := by
  rw [arxiv_research_orchestrator] at h
  split at h
  · exact absurd (congrArg Prod.fst h) (by simp)
  next hc =>
    dsimp only at h
    split at h
    · split at h
      next q =>
        split at h
        · exact absurd (congrArg Prod.fst h) (by simp)
        · simp only [Prod.mk.injEq, OrchStep.continueAsNew.injEq] at h
          obtain ⟨hs, -⟩ := h
          subst hs
          exact ⟨Nat.lt_of_not_le hc, rfl, rfl, rfl, rfl⟩
      next =>
        exact absurd (congrArg Prod.fst h) (by simp)
    · exact absurd (congrArg Prod.fst h) (by simp)

/-- A done outcome reports either the incoming counter and findings
count (cap reached before any round) or both incremented by one (a round
completed in this instance). -/
theorem orchestrator_done_characterization
    {s : WorkflowState} {res : FinalResult}
    {round : String → String → JObj}
    {decide : String → List JObj → Nat → Nat → Bool}
    {gaps : String → List JObj → Nat → Option String}
    {synth : String → List JObj → String} {tr : List Act}
    (h : arxiv_research_orchestrator s round decide gaps synth = (.done res, tr)) :
    (res.iterations = s.current_iteration ∧
     res.findings_count = s.all_findings.length) ∨
    (res.iterations = s.current_iteration + 1 ∧
     res.findings_count = s.all_findings.length + 1) := by
  rw [arxiv_research_orchestrator] at h
  split at h
  · left
    simp only [Prod.mk.injEq, OrchStep.done.injEq] at h
    obtain ⟨hs, -⟩ := h
    subst hs
    exact ⟨rfl, rfl⟩
  · dsimp only at h
    split at h
    · split at h
      next q =>
        split at h
        · right
          simp only [Prod.mk.injEq, OrchStep.done.injEq] at h
          obtain ⟨hs, -⟩ := h
          subst hs
          exact ⟨rfl, List.length_append _ _⟩
        · exact absurd (congrArg Prod.fst h) (by simp)
      next =>
        right
        simp only [Prod.mk.injEq, OrchStep.done.injEq] at h
        obtain ⟨hs, -⟩ := h
        subst hs
        exact ⟨rfl, List.length_append _ _⟩
    · right
      simp only [Prod.mk.injEq, OrchStep.done.injEq] at h
      obtain ⟨hs, -⟩ := h
      subst hs
      exact ⟨rfl, List.length_append _ _⟩

/-- Claim C2: from the initial state, every state reachable across
continue_as_new boundaries satisfies len(findings) = current_iteration
and current_iteration ≤ max_iterations; each iteration that re-enters
increments the counter by one and appends exactly one finding, the
invariant is preserved across the re-entry boundary, and every final
result reports findings_count equal to iterations (once a round
completes, the finding list has caught up with the counter). -/
theorem loop_invariant_reachable
    (topic : String) (mi : Nat) (s : WorkflowState)
    (h : Reaches (initialState topic mi) s) :
    (s.all_findings.length = s.current_iteration ∧
     s.current_iteration ≤ s.max_iterations) ∧
    (∀ (round : String → String → JObj)
       (decide : String → List JObj → Nat → Nat → Bool)
       (gaps : String → List JObj → Nat → Option String)
       (synth : String → List JObj → String) (s' : WorkflowState) (tr : List Act),
       arxiv_research_orchestrator s round decide gaps synth = (.continueAsNew s', tr) →
       s'.current_iteration = s.current_iteration + 1 ∧
       s'.all_findings = s.all_findings ++ [round s.topic s.current_query] ∧
       s'.all_findings.length = s'.current_iteration ∧
       s'.current_iteration ≤ s'.max_iterations) ∧
    (∀ (round : String → String → JObj)
       (decide : String → List JObj → Nat → Nat → Bool)
       (gaps : String → List JObj → Nat → Option String)
       (synth : String → List JObj → String) (res : FinalResult) (tr : List Act),
       arxiv_research_orchestrator s round decide gaps synth = (.done res, tr) →
       res.findings_count = res.iterations) := by
  have inv : ∀ t, Reaches (initialState topic mi) t →
      t.all_findings.length = t.current_iteration ∧
      t.current_iteration ≤ t.max_iterations := by
    intro t ht
    induction ht with
    | refl => exact ⟨rfl, Nat.zero_le mi⟩
    | step round decide gaps synth tr hreach heq ih =>
      obtain ⟨hlt, -, hmax, hci, hfs⟩ := orchestrator_continue_characterization heq
      constructor
      · rw [hfs, hci, List.length_append, ih.1]
        rfl
      · omega
  refine ⟨inv s h, ?_, ?_⟩
  · intro round decide gaps synth s' tr heq
    obtain ⟨hlt, -, hmax, hci, hfs⟩ := orchestrator_continue_characterization heq
    obtain ⟨hlen, -⟩ := inv s h
    refine ⟨hci, hfs, ?_, ?_⟩
    · rw [hfs, hci, List.length_append, hlen]
      rfl
    · omega
  · intro round decide gaps synth res tr heq
    obtain ⟨hlen, -⟩ := inv s h
    rcases orchestrator_done_characterization heq with ⟨hit, hfc⟩ | ⟨hit, hfc⟩ <;>
      rw [hit, hfc, hlen]

/-- Witness for C2: the state reached after one live iteration satisfies
the invariant. -/
theorem loop_invariant_reachable_witness :
    reachedState.all_findings.length = reachedState.current_iteration ∧
    reachedState.current_iteration ≤ reachedState.max_iterations :=
  (loop_invariant_reachable "ai" 2 reachedState
    (Reaches.step roundO decideO gapsO synthO
      [Act.searchRound, Act.decideCont, Act.identifyGaps] Reaches.refl rfl)).1

/-- Claim C1: for every WorkflowState input with current_iteration at or
above max_iterations, the main loop performs no research round and goes
directly to synthesis, producing a FinalResult whose iterations equal the
input current_iteration and whose findings_count is the length of the
input findings list. -/
theorem orchestrator_at_cap_synthesizes_directly
    (s : WorkflowState)
    (round : String → String → JObj)
    (decide : String → List JObj → Nat → Nat → Bool)
    (gaps : String → List JObj → Nat → Option String)
    (synth : String → List JObj → String)
    (h : s.max_iterations ≤ s.current_iteration) :
    arxiv_research_orchestrator s round decide gaps synth =
      (.done ⟨s.topic, s.current_iteration, synth s.topic s.all_findings,
              s.all_findings.length⟩,
       [Act.synthesize]) := by
  simp [arxiv_research_orchestrator, h]

/-- Witness for C1: the degenerate max_iterations = 0 initial call goes
straight to synthesis with zero findings and iterations = 0. -/
theorem orchestrator_at_cap_synthesizes_directly_witness :
    (initialState "quantum computing" 0).max_iterations ≤
      (initialState "quantum computing" 0).current_iteration ∧
    arxiv_research_orchestrator (initialState "quantum computing" 0)
      (fun _ _ => []) (fun _ _ _ _ => false) (fun _ _ _ => none)
      (fun _ _ => "empty report") =
      (.done ⟨"quantum computing", 0, "empty report", 0⟩, [Act.synthesize]) :=
  ⟨Nat.le_refl 0,
   orchestrator_at_cap_synthesizes_directly (initialState "quantum computing" 0)
     (fun _ _ => []) (fun _ _ _ _ => false) (fun _ _ _ => none)
     (fun _ _ => "empty report") (Nat.le_refl 0)⟩

/-- Claim C3: a research round whose fetch step returns zero papers makes
no extraction call (analyzeCalls = 0) and returns the fixed Finding with
relevance_score 0, empty insight, key-point, gap and top-paper lists, and
summary "No papers found for this query". -/
theorem empty_search_short_circuits
    (main_topic query : String) (parsed : Except Unit JObj) :
    paper_research_orchestrator main_topic query [] parsed =
      ([("query", .str query), ("insights", .arr []), ("relevance_score", .num 0),
        ("summary", .str "No papers found for this query"), ("key_points", .arr []),
        ("research_gaps", .arr []), ("top_papers", .arr [])],
       ⟨1, 0⟩) := rfl

/-- Claim C4: a round whose extraction response fails JSON parsing still
completes (the embedding is a total function: the JSONDecodeError is
caught inside the activity) and produces the documented default
evaluation — empty insights, key_points and research_gaps, relevance
score 5, summary "Failed to parse LLM response" — with the query and the
digest-derived top_papers assigned afterwards. -/
theorem parse_failure_yields_default_finding
    (main_topic query : String) (p : Paper) (ps : List Paper) :
    paper_research_orchestrator main_topic query (p :: ps) (.error ()) =
      ([("insights", .arr []), ("relevance_score", .num 5),
        ("summary", .str "Failed to parse LLM response"), ("key_points", .arr []),
        ("research_gaps", .arr []), ("query", .str query),
        ("top_papers", .arr (((p :: ps).take MAX_PAPERS_TO_ANALYZE).map top_paper_entry))],
       ⟨1, 1⟩) := rfl

/-- Claim C9: when the continuation decision runs (iteration below the
cap) and the model response parses to an object without the
"should_continue" key, the activity returns False; and a truthy return
happens only when the parsed object maps "should_continue" to a truthy
value. -/
theorem missing_should_continue_defaults_false
    (topic : String) (all_findings : List JObj) (ci mi : Nat) (d : JObj)
    (hlt : ci < mi) :
    (jget d "should_continue" = none →
      decide_continuation_activity topic all_findings ci mi (.ok d) = .bool false)
    ∧ ((decide_continuation_activity topic all_findings ci mi (.ok d)).truthy = true →
        ∃ v, jget d "should_continue" = some v ∧ v.truthy = true) := by
  have hcond : ¬ mi ≤ ci := by omega
  constructor
  · intro hnone
    simp [decide_continuation_activity, hcond, hnone]
  · intro ht
    cases hfind : jget d "should_continue" with
    | none =>
      rw [decide_continuation_activity] at ht
      simp [hcond, hfind, JVal.truthy] at ht
    | some v =>
      refine ⟨v, rfl, ?_⟩
      rw [decide_continuation_activity] at ht
      simpa [hcond, hfind] using ht

/-- Witness for C9: a parsed object carrying only an unrelated key makes
the decision activity return False. -/
theorem missing_should_continue_defaults_false_witness :
    1 < 3 ∧
    decide_continuation_activity "transformers" [] 1 3
      (.ok [("confidence", JVal.num 9)]) = .bool false :=
  ⟨by decide,
   (missing_should_continue_defaults_false "transformers" [] 1 3
     [("confidence", JVal.num 9)] (by decide)).1 rfl⟩

/-- Claim C10: the control surface rejects an empty or whitespace-only
topic with a 400 before any workflow is created, and otherwise schedules
the workflow with max_iterations clamped to [1,10] by
max(1, min(10, requested)). -/
theorem start_request_validates_and_clamps (topic : String) (mi : Int) :
    (pyStrip topic = "" → start_agent topic mi = .httpError 400 "Topic cannot be empty")
    ∧ (pyStrip topic ≠ "" →
        start_agent topic mi = .scheduled (pyStrip topic) (max 1 (min 10 mi)) ∧
        1 ≤ validated_max_iterations mi ∧ validated_max_iterations mi ≤ 10) := by
  constructor
  · intro h
    simp [start_agent, h]
  · intro h
    refine ⟨by simp [start_agent, h, validated_max_iterations], ?_, ?_⟩
    · exact le_max_left 1 (min 10 mi)
    · exact max_le (by norm_num) (min_le_left 10 mi)

/-- Witness for C10: a request asking for 25 iterations is clamped to 10
and the topic is stripped. -/
theorem start_request_validates_and_clamps_witness :
    pyStrip " graph neural networks " ≠ "" ∧
    start_agent " graph neural networks " 25 =
      .scheduled "graph neural networks" 10 :=
  ⟨by decide,
   ((start_request_validates_and_clamps " graph neural networks " 25).2 (by decide)).1⟩

/-- The link loop computes, in each component, the href of the last link
the corresponding branch fires on, keeping the initial accumulator when
no link matches. -/
theorem foldl_link_step (links : List RawLink) (a b : String) :
    links.foldl link_step (a, b) =
      (((last_matching is_pdf_link links).map RawLink.href).getD a,
       ((last_matching is_alt_link links).map RawLink.href).getD b) := by
  induction links generalizing a b with
  | nil => rfl
  | cons l ls ih =>
    rw [List.foldl_cons, ih]
    by_cases hp : is_pdf_link l = true
    · have ha : is_alt_link l = false := by simp [is_alt_link, hp]
      simp only [link_step, hp, if_true, last_matching, ha]
      cases last_matching is_pdf_link ls <;>
        cases last_matching is_alt_link ls <;> simp
    · by_cases hr : (l.rel == "alternate") = true
      · have ha : is_alt_link l = true := by simp [is_alt_link, hp, hr]
        simp only [link_step, hp, if_false, hr, if_true, last_matching, ha,
          Bool.false_eq_true]
        cases last_matching is_pdf_link ls <;>
          cases last_matching is_alt_link ls <;> simp
      · have ha : is_alt_link l = false := by simp [is_alt_link, hp, hr]
        simp only [link_step, hp, hr, if_false, last_matching, ha,
          Bool.false_eq_true]
        cases last_matching is_pdf_link ls <;>
          cases last_matching is_alt_link ls <;> simp

/-- Counterexample to claim C7 as stated: on an entry with two
"alternate"-relation links, the first alternate link's href is A, yet the
parser's abstract URL is B — the loop overwrites, so the last alternate
link wins, not the first. -/
theorem first_alternate_claim_counterexample :
    spec_first_alternate [altLinkA, altLinkB] = some "https://arxiv.org/abs/1111.0001v1"
    ∧ entry_abs_url "1111.0001v1" [altLinkA, altLinkB] = "https://arxiv.org/abs/2222.0002v2"
    ∧ ("https://arxiv.org/abs/2222.0002v2" : String) ≠ "https://arxiv.org/abs/1111.0001v1" :=
  ⟨rfl, rfl, by decide⟩

/-- Claim C7 (amended): the parser selects the last "alternate"-relation
link not claimed by the pdf branch as the abstract URL (each alternate
link overwrites the previous one), falls back to the URL constructed from
the paper id when no such link is present or when its href is empty, and
selects the last pdf-typed or pdf-titled link as the PDF URL. -/
theorem parser_link_selection (arxiv_id : String) (links : List RawLink) :
    (select_links links).1 = ((last_matching is_pdf_link links).map RawLink.href).getD ""
    ∧ entry_abs_url arxiv_id links =
        (match last_matching is_alt_link links with
         | some l => if l.href = "" then "https://arxiv.org/abs/" ++ arxiv_id else l.href
         | none => "https://arxiv.org/abs/" ++ arxiv_id) := by
  have h := foldl_link_step links "" ""
  constructor
  · rw [select_links, h]
  · rw [entry_abs_url, select_links, h]
    cases last_matching is_alt_link links <;> simp

/-- With valid arguments, search_arxiv reduces to the request-and-parse
pipeline. -/
theorem search_arxiv_valid_unfold
    (query : String) (mr : Int) (sb so : String)
    (h1 : 1 ≤ mr) (h2 : mr ≤ 100) (h3 : pyStrip query ≠ "")
    (h4 : sb ∈ SORT_BY_VALUES) (h5 : so ∈ SORT_ORDER_VALUES)
    (f : Nat → AttemptResult) (parseBody : String → Except String (List Paper)) :
    search_arxiv query mr sb so f parseBody =
      (match rate_limited_request f with
       | (.raisedTimeout m, n, bs) =>
         ⟨.error (.arxivAPIError ("Request timed out: " ++ m)), n, bs⟩
       | (.raisedNetErr m, n, bs) =>
         ⟨.error (.arxivAPIError ("Network error: " ++ m)), n, bs⟩
       | (.maxRetriesExceeded, n, bs) =>
         ⟨.error (.arxivAPIError "Max retries exceeded"), n, bs⟩
       | (.response s b, n, bs) =>
         if 400 ≤ s ∧ s < 600 then
           ⟨.error (.arxivAPIError ("HTTP error: " ++ toString s)), n, bs⟩
         else
           match parseBody b with
           | .error m => ⟨.error (.arxivAPIError ("Invalid API response: " ++ m)), n, bs⟩
           | .ok papers => ⟨.ok papers, n, bs⟩) := by
  rw [search_arxiv, if_neg (not_not_intro ⟨h1, h2⟩), if_neg h3,
    if_neg (not_not_intro h4), if_neg (not_not_intro h5)]

/-- A first-attempt timeout propagates out of the retry loop at once. -/
theorem rate_limited_request_timeout
    (f : Nat → AttemptResult) (m : String) (h : f 0 = .timeout m) :
    rate_limited_request f = (.raisedTimeout m, 1, []) := by
  rw [rate_limited_request]
  show rlAux f 0 (2 + 1) [] none = _
  rw [rlAux, h]

/-- A first-attempt network error propagates out of the retry loop at
once. -/
theorem rate_limited_request_netErr
    (f : Nat → AttemptResult) (m : String) (h : f 0 = .netErr m) :
    rate_limited_request f = (.raisedNetErr m, 1, []) := by
  rw [rate_limited_request]
  show rlAux f 0 (2 + 1) [] none = _
  rw [rlAux, h]

/-- A first-attempt non-retryable response is returned at once, with no
backoff slept. -/
theorem rate_limited_request_first_ok
    (f : Nat → AttemptResult) (st : Nat) (b : String)
    (h : f 0 = .resp st b) (hr : retryableStatus st = false) :
    rate_limited_request f = (.response st b, 1, []) := by
  rw [rate_limited_request]
  show rlAux f 0 (2 + 1) [] none = _
  rw [rlAux, h]
  simp only [hr, Bool.false_eq_true, if_false]

/-- Two retryable responses followed by a success: three requests, two
exponential backoffs, the successful response returned. -/
theorem rate_limited_request_two_retries
    (f : Nat → AttemptResult) (s0 s1 : Nat) (b0 b1 body : String)
    (h0 : f 0 = .resp s0 b0) (hr0 : retryableStatus s0 = true)
    (h1 : f 1 = .resp s1 b1) (hr1 : retryableStatus s1 = true)
    (h2 : f 2 = .resp 200 body) :
    rate_limited_request f =
      (.response 200 body, 3, [RETRY_BACKOFF_BASE * 2 ^ 0, RETRY_BACKOFF_BASE * 2 ^ 1]) := by
  rw [rate_limited_request]
  show rlAux f 0 (2 + 1) [] none = _
  rw [rlAux, h0]
  simp only [hr0, if_true]
  show rlAux f 1 (1 + 1) [RETRY_BACKOFF_BASE * 2 ^ 0] (some (s0, b0)) = _
  rw [rlAux, h1]
  simp only [hr1, if_true]
  show rlAux f 2 (0 + 1) [RETRY_BACKOFF_BASE * 2 ^ 0, RETRY_BACKOFF_BASE * 2 ^ 1]
    (some (s1, b1)) = _
  rw [rlAux, h2]
  simp only [show retryableStatus 200 = false from rfl, Bool.false_eq_true, if_false]

/-- Three consecutive 503 responses exhaust the attempt cap: three
requests, three exponential backoffs, and the last 503 response is
returned — no fourth attempt is ever made. -/
theorem rate_limited_request_exhausted
    (f : Nat → AttemptResult) (b : String)
    (hf : ∀ n, n < MAX_RETRIES → f n = .resp 503 b) :
    rate_limited_request f =
      (.response 503 b, 3,
       [RETRY_BACKOFF_BASE * 2 ^ 0, RETRY_BACKOFF_BASE * 2 ^ 1,
        RETRY_BACKOFF_BASE * 2 ^ 2]) := by
  have h0 := hf 0 (by decide)
  have h1 := hf 1 (by decide)
  have h2 := hf 2 (by decide)
  have hr : retryableStatus 503 = true := rfl
  rw [rate_limited_request]
  show rlAux f 0 (2 + 1) [] none = _
  rw [rlAux, h0]
  simp only [hr, if_true]
  show rlAux f 1 (1 + 1) [RETRY_BACKOFF_BASE * 2 ^ 0] (some (503, b)) = _
  rw [rlAux, h1]
  simp only [hr, if_true]
  show rlAux f 2 (0 + 1) [RETRY_BACKOFF_BASE * 2 ^ 0, RETRY_BACKOFF_BASE * 2 ^ 1]
    (some (503, b)) = _
  rw [rlAux, h2]
  simp only [hr, if_true]
  rfl

/-- A string starts with itself followed by anything. -/
theorem strHasLead_append_append (lead rest m : String) :
    strHasLead lead ((lead ++ rest) ++ m) = true := by
  simp only [strHasLead, String.data_append, List.append_assoc]
  rw [List.isPrefixOf_iff_prefix]
  exact List.prefix_append _ _

/-- Timeout messages classify as transport errors. -/
theorem specErrorClass_timeout (m : String) :
    specErrorClass ("Request timed out: " ++ m) = some .transportError := by
  have hneg : strHasLead "HTTP error" ("Request timed out: " ++ m) = false := by
    simp [strHasLead, String.data_append, List.isPrefixOf]
  have hpos : strHasLead "Request timed out" ("Request timed out: " ++ m) = true := by
    simpa using strHasLead_append_append "Request timed out" ": " m
  simp [specErrorClass, hneg, hpos]

/-- Network-error messages classify as transport errors. -/
theorem specErrorClass_netErr (m : String) :
    specErrorClass ("Network error: " ++ m) = some .transportError := by
  have hneg1 : strHasLead "HTTP error" ("Network error: " ++ m) = false := by
    simp [strHasLead, String.data_append, List.isPrefixOf]
  have hneg2 : strHasLead "Request timed out" ("Network error: " ++ m) = false := by
    simp [strHasLead, String.data_append, List.isPrefixOf]
  have hpos : strHasLead "Network error" ("Network error: " ++ m) = true := by
    simpa using strHasLead_append_append "Network error" ": " m
  simp [specErrorClass, hneg1, hneg2, hpos]

/-- Invalid-response messages classify as malformed responses. -/
theorem specErrorClass_parse (m : String) :
    specErrorClass ("Invalid API response: " ++ m) = some .malformedResponse := by
  have hneg1 : strHasLead "HTTP error" ("Invalid API response: " ++ m) = false := by
    simp [strHasLead, String.data_append, List.isPrefixOf]
  have hneg2 : strHasLead "Request timed out" ("Invalid API response: " ++ m) = false := by
    simp [strHasLead, String.data_append, List.isPrefixOf]
  have hneg3 : strHasLead "Network error" ("Invalid API response: " ++ m) = false := by
    simp [strHasLead, String.data_append, List.isPrefixOf]
  have hpos : strHasLead "Invalid API response" ("Invalid API response: " ++ m) = true := by
    simpa using strHasLead_append_append "Invalid API response" ": " m
  simp [specErrorClass, hneg1, hneg2, hneg3, hpos]

/-- Counterexample to claim C5 as stated: with valid arguments and an
upstream that answers 503 on the first three attempts and would succeed
on the fourth, the fetcher does not return the successfully parsed list —
the attempt cap is three, so the last 503 is surfaced as an HTTP error
after exactly three requests. -/
theorem fetch_503_thrice_counterexample :
    transport503then200 3 = .resp 200 "<feed/>"
    ∧ parseSampleFeed "<feed/>" = .ok [samplePaper]
    ∧ (search_arxiv "quantum" 30 "relevance" "descending"
        transport503then200 parseSampleFeed).outcome
      = .error (.arxivAPIError "HTTP error: 503")
    ∧ (search_arxiv "quantum" 30 "relevance" "descending"
        transport503then200 parseSampleFeed).requests = 3
    ∧ (search_arxiv "quantum" 30 "relevance" "descending"
        transport503then200 parseSampleFeed).outcome ≠ .ok [samplePaper] := by
  refine ⟨rfl, rfl, rfl, rfl, ?_⟩
  rw [show (search_arxiv "quantum" 30 "relevance" "descending"
      transport503then200 parseSampleFeed).outcome
    = .error (.arxivAPIError "HTTP error: 503") from rfl]
  exact fun hcon => nomatch hcon

/-- Claim C5 (amended): on 429/503 the fetcher retries with exponential
backoff (base delay times 2^attempt), but the fixed cap is three attempts
in total: a 503 on each of the first two attempts followed by a success
on the third yields the successfully parsed result list after two
backoffs, while 503 on all three attempts exhausts the cap and the last
503 response is surfaced as an HTTP error, with no fourth attempt. -/
theorem fetch_retry_cap_behavior
    (query : String) (mr : Int) (sb so : String)
    (hv : ValidArgs query mr sb so)
    (parseBody : String → Except String (List Paper)) :
    (∀ (f : Nat → AttemptResult) (s0 s1 : Nat) (b0 b1 body : String) (papers : List Paper),
        f 0 = .resp s0 b0 → retryableStatus s0 = true →
        f 1 = .resp s1 b1 → retryableStatus s1 = true →
        f 2 = .resp 200 body → parseBody body = .ok papers →
        search_arxiv query mr sb so f parseBody =
          ⟨.ok papers, 3, [RETRY_BACKOFF_BASE * 2 ^ 0, RETRY_BACKOFF_BASE * 2 ^ 1]⟩)
    ∧ (∀ (f : Nat → AttemptResult) (b : String),
        (∀ n, n < MAX_RETRIES → f n = .resp 503 b) →
        search_arxiv query mr sb so f parseBody =
          ⟨.error (.arxivAPIError "HTTP error: 503"), 3,
           [RETRY_BACKOFF_BASE * 2 ^ 0, RETRY_BACKOFF_BASE * 2 ^ 1,
            RETRY_BACKOFF_BASE * 2 ^ 2]⟩) := by
  obtain ⟨h1, h2, h3, h4, h5⟩ := hv
  constructor
  · intro f s0 s1 b0 b1 body papers hf0 hr0 hf1 hr1 hf2 hpb
    rw [search_arxiv_valid_unfold query mr sb so h1 h2 h3 h4 h5 f parseBody,
      rate_limited_request_two_retries f s0 s1 b0 b1 body hf0 hr0 hf1 hr1 hf2]
    simp [hpb]
  · intro f b hf
    rw [search_arxiv_valid_unfold query mr sb so h1 h2 h3 h4 h5 f parseBody,
      rate_limited_request_exhausted f b hf]
    simp
    rfl

/-- Witness for C5 (amended), exhaustion side: the concrete
503-503-503-then-200 transport yields the HTTP error after three requests
and backoffs 5, 10, 20. -/
theorem fetch_retry_cap_behavior_witness :
    ValidArgs "quantum" 30 "relevance" "descending" ∧
    search_arxiv "quantum" 30 "relevance" "descending"
        transport503then200 parseSampleFeed =
      ⟨.error (.arxivAPIError "HTTP error: 503"), 3,
       [RETRY_BACKOFF_BASE * 2 ^ 0, RETRY_BACKOFF_BASE * 2 ^ 1,
        RETRY_BACKOFF_BASE * 2 ^ 2]⟩ :=
  ⟨⟨by decide, by decide, by decide, by decide, by decide⟩,
   (fetch_retry_cap_behavior "quantum" 30 "relevance" "descending"
      ⟨by decide, by decide, by decide, by decide, by decide⟩ parseSampleFeed).2
     transport503then200 ""
     (fun n hn => by
       have hn3 : n < 3 := hn
       simp [transport503then200, hn3])⟩

/-- Claim C6: with valid arguments, every fetch failure carries a message
falling in exactly one of the spec's three classes — retry exhaustion
surfaces as an upstream (HTTP) error, timeouts and network errors as
transport errors, and an unparseable body as a malformed response — so a
caller can distinguish the three cases from the message. -/
theorem fetch_error_classes
    (query : String) (mr : Int) (sb so : String)
    (hv : ValidArgs query mr sb so)
    (parseBody : String → Except String (List Paper)) :
    (∀ (f : Nat → AttemptResult) (b : String),
        (∀ n, n < MAX_RETRIES → f n = .resp 503 b) →
        (search_arxiv query mr sb so f parseBody).outcome =
          .error (.arxivAPIError "HTTP error: 503") ∧
        specErrorClass "HTTP error: 503" = some .upstreamUnavailable)
    ∧ (∀ (f : Nat → AttemptResult) (m : String), f 0 = .timeout m →
        (search_arxiv query mr sb so f parseBody).outcome =
          .error (.arxivAPIError ("Request timed out: " ++ m)) ∧
        specErrorClass ("Request timed out: " ++ m) = some .transportError)
    ∧ (∀ (f : Nat → AttemptResult) (m : String), f 0 = .netErr m →
        (search_arxiv query mr sb so f parseBody).outcome =
          .error (.arxivAPIError ("Network error: " ++ m)) ∧
        specErrorClass ("Network error: " ++ m) = some .transportError)
    ∧ (∀ (f : Nat → AttemptResult) (body m : String), f 0 = .resp 200 body →
        parseBody body = .error m →
        (search_arxiv query mr sb so f parseBody).outcome =
          .error (.arxivAPIError ("Invalid API response: " ++ m)) ∧
        specErrorClass ("Invalid API response: " ++ m) = some .malformedResponse) := by
  obtain ⟨h1, h2, h3, h4, h5⟩ := hv
  refine ⟨?_, ?_, ?_, ?_⟩
  · intro f b hf
    rw [search_arxiv_valid_unfold query mr sb so h1 h2 h3 h4 h5 f parseBody,
      rate_limited_request_exhausted f b hf]
    exact ⟨rfl, by decide⟩
  · intro f m hm
    rw [search_arxiv_valid_unfold query mr sb so h1 h2 h3 h4 h5 f parseBody,
      rate_limited_request_timeout f m hm]
    exact ⟨rfl, specErrorClass_timeout m⟩
  · intro f m hm
    rw [search_arxiv_valid_unfold query mr sb so h1 h2 h3 h4 h5 f parseBody,
      rate_limited_request_netErr f m hm]
    exact ⟨rfl, specErrorClass_netErr m⟩
  · intro f body m hm hpb
    rw [search_arxiv_valid_unfold query mr sb so h1 h2 h3 h4 h5 f parseBody,
      rate_limited_request_first_ok f 200 body hm rfl]
    refine ⟨?_, specErrorClass_parse m⟩
    simp [hpb]

/-- Witness for C6: a concrete timeout produces the transport-class
message. -/
theorem fetch_error_classes_witness :
    ValidArgs "quantum" 30 "relevance" "descending" ∧
    (search_arxiv "quantum" 30 "relevance" "descending"
        transportTimeout parseSampleFeed).outcome
      = .error (.arxivAPIError ("Request timed out: " ++ "read deadline exceeded")) ∧
    specErrorClass ("Request timed out: " ++ "read deadline exceeded")
      = some .transportError :=
  ⟨⟨by decide, by decide, by decide, by decide, by decide⟩,
   (fetch_error_classes "quantum" 30 "relevance" "descending"
      ⟨by decide, by decide, by decide, by decide, by decide⟩ parseSampleFeed).2.1
     transportTimeout "read deadline exceeded" rfl⟩

/-- Claim C8: search_arxiv fails with a ValueError exactly when the query
is empty or whitespace-only, max_results lies outside [1,100], or a sort
field is outside its enumerated set; and whenever the arguments are
invalid no outbound request is made. -/
theorem fetch_rejects_invalid_arguments
    (query : String) (mr : Int) (sb so : String)
    (f : Nat → AttemptResult) (parseBody : String → Except String (List Paper)) :
    ((∃ m, (search_arxiv query mr sb so f parseBody).outcome = .error (.valueError m)) ↔
      (pyStrip query = "" ∨ mr < 1 ∨ 100 < mr ∨
       sb ∉ SORT_BY_VALUES ∨ so ∉ SORT_ORDER_VALUES))
    ∧ (¬ ValidArgs query mr sb so →
        (search_arxiv query mr sb so f parseBody).requests = 0) := by
  by_cases hm : 1 ≤ mr ∧ mr ≤ 100
  case neg =>
    have hout : search_arxiv query mr sb so f parseBody =
        ⟨.error (.valueError "max_results must be between 1 and 100"), 0, []⟩ := by
      rw [search_arxiv, if_pos hm]
    refine ⟨⟨fun _ => ?_, fun _ => ⟨_, by rw [hout]⟩⟩, fun _ => by rw [hout]⟩
    have hmm : mr < 1 ∨ 100 < mr := by omega
    rcases hmm with hmm | hmm
    · exact Or.inr (Or.inl hmm)
    · exact Or.inr (Or.inr (Or.inl hmm))
  case pos =>
    by_cases hq : pyStrip query = ""
    case pos =>
      have hout : search_arxiv query mr sb so f parseBody =
          ⟨.error (.valueError "query cannot be empty"), 0, []⟩ := by
        rw [search_arxiv, if_neg (not_not_intro hm), if_pos hq]
      exact ⟨⟨fun _ => Or.inl hq, fun _ => ⟨_, by rw [hout]⟩⟩, fun _ => by rw [hout]⟩
    case neg =>
      by_cases hsb : sb ∈ SORT_BY_VALUES
      case neg =>
        have hout : search_arxiv query mr sb so f parseBody =
            ⟨.error (.valueError "sort_by must be one of the allowed values"), 0, []⟩ := by
          rw [search_arxiv, if_neg (not_not_intro hm), if_neg hq, if_pos hsb]
        exact ⟨⟨fun _ => Or.inr (Or.inr (Or.inr (Or.inl hsb))),
          fun _ => ⟨_, by rw [hout]⟩⟩, fun _ => by rw [hout]⟩
      case pos =>
        by_cases hso : so ∈ SORT_ORDER_VALUES
        case neg =>
          have hout : search_arxiv query mr sb so f parseBody =
              ⟨.error (.valueError "sort_order must be one of the allowed values"), 0, []⟩ := by
            rw [search_arxiv, if_neg (not_not_intro hm), if_neg hq,
              if_neg (not_not_intro hsb), if_pos hso]
          exact ⟨⟨fun _ => Or.inr (Or.inr (Or.inr (Or.inr hso))),
            fun _ => ⟨_, by rw [hout]⟩⟩, fun _ => by rw [hout]⟩
        case pos =>
          have hne : ∀ m, (search_arxiv query mr sb so f parseBody).outcome ≠
              .error (.valueError m) := by
            intro m
            rw [search_arxiv_valid_unfold query mr sb so hm.1 hm.2 hq hsb hso f parseBody]
            rcases hrl : rate_limited_request f with ⟨r, n, bs⟩
            cases r with
            | response st b =>
              by_cases hst : 400 ≤ st ∧ st < 600
              · simp [hst]
              · rcases hpb : parseBody b with m2 | ps <;> simp [hst, hpb]
            | raisedTimeout m2 => simp
            | raisedNetErr m2 => simp
            | maxRetriesExceeded => simp
          refine ⟨⟨fun hex => ?_, fun hdis => ?_⟩, fun hnv => ?_⟩
          · obtain ⟨m, hmo⟩ := hex
            exact absurd hmo (hne m)
          · rcases hdis with h | h | h | h | h
            · exact absurd h hq
            · exact absurd h (by omega)
            · exact absurd h (by omega)
            · exact absurd hsb h
            · exact absurd hso h
          · exact absurd ⟨hm.1, hm.2, hq, hsb, hso⟩ hnv

/-- Witness for C8: a whitespace-only query is rejected with a ValueError
and zero outbound requests. -/
theorem fetch_rejects_invalid_arguments_witness :
    (∃ m, (search_arxiv "   " 30 "relevance" "descending"
        transport503then200 parseSampleFeed).outcome = .error (.valueError m))
    ∧ (search_arxiv "   " 30 "relevance" "descending"
        transport503then200 parseSampleFeed).requests = 0 :=
  ⟨(fetch_rejects_invalid_arguments "   " 30 "relevance" "descending"
      transport503then200 parseSampleFeed).1.mpr (Or.inl (by decide)),
   (fetch_rejects_invalid_arguments "   " 30 "relevance" "descending"
      transport503then200 parseSampleFeed).2
     (fun hv => hv.2.2.1 (by decide))⟩

end ArxivAgent
